import Mathlib

/-!
Verification development for the Shakespeare voice chatbot (`app.py`).

The program is a Streamlit page that sends a typed or transcribed question
to a chat-completion endpoint and optionally synthesizes the reply as audio.
We shallowly embed the pieces the specification talks about:

* a model `PyVal` of the dynamically typed Python values that flow through
  the response-normalization helpers, together with the access primitives
  (attribute lookup, subscription, dict `.get`, truthiness) those helpers use;
* the three extraction helpers `safe_get_assistant_text`,
  `safe_get_transcription_text` and `safe_get_audio_bytes` (lines 35-79);
* the conversation state (`st.session_state.messages`) and the operations
  performed on it (clear, lazy system-prompt insertion, user/assistant
  appends);
* the submit handler (lines 131-219) as a function `runSubmit` from the
  form inputs and the outcomes of the three remote calls to the resulting
  conversation state, emitted UI events and attempted calls.

Remote calls are modelled by their outcome (`Except String PyVal`: either a
raised exception with its message, or a returned response value), passed in
as parameters, so that the handler itself is a pure function of them.

Two genuine defects of the source are reproduced, not repaired:

* line 200 ends the `voice_map` dict literal with a trailing comma, so
  `voice_map` is a 1-tuple containing the dict and `voice_map[voice_style]`
  raises `TypeError: tuple indices must be integers or slices, not str`;
* the text-to-speech block (lines 203-216) fails, as committed, to parse
  (line 210 dedents out of the `try:` with no `except`).  The model follows
  the evident intended indentation for that block, and we prove it is dead
  code anyway: the tuple lookup just above it always raises first.
-/

/-- Model of the dynamically typed Python values handled by the
normalization helpers: strings, ints, bytes, `None`, lists, tuples,
string-keyed dicts, and attribute-bearing objects. -/
inductive PyVal where
  | pstr (s : String)
  | pint (n : Int)
  | pbytes (bs : List Nat)
  | pnone
  | plist (xs : List PyVal)
  | ptuple (xs : List PyVal)
  | pdict (fields : List (String × PyVal))
  | pobj (attrs : List (String × PyVal))

/-- Python attribute access `v.name`.  Only `pobj` values carry the
attribute names probed by this program (`choices`, `message`, `content`,
`text`, `read`); the built-in types expose none of them, so access on any
other constructor fails. -/
def getAttr : PyVal → String → Except String PyVal
  | .pobj attrs, n =>
      match List.lookup n attrs with
      | some v => .ok v
      | none => .error ("object has no attribute " ++ n)
  | _, n => .error ("object has no attribute " ++ n)

/-- Python `getattr(v, name, default)`: attribute access that returns the
default instead of raising. -/
def getAttrD (v : PyVal) (n : String) (dflt : PyVal) : PyVal :=
  match getAttr v n with
  | .ok w => w
  | .error _ => dflt

/-- Python `hasattr(v, name)`. -/
def hasAttr (v : PyVal) (n : String) : Bool :=
  match getAttr v n with
  | .ok _ => true
  | .error _ => false

/-- Python integer subscription `v[i]` for a natural index. -/
def pyIndex : PyVal → Nat → Except String PyVal
  | .plist xs, i =>
      if h : i < xs.length then .ok (xs.get ⟨i, h⟩) else .error "list index out of range"
  | .ptuple xs, i =>
      if h : i < xs.length then .ok (xs.get ⟨i, h⟩) else .error "tuple index out of range"
  | .pstr s, i =>
      if h : i < s.data.length then .ok (.pstr (String.mk [s.data.get ⟨i, h⟩]))
      else .error "string index out of range"
  | .pbytes bs, i =>
      if h : i < bs.length then .ok (.pint (bs.get ⟨i, h⟩)) else .error "index out of range"
  | .pdict _, _ => .error "KeyError"
  | _, _ => .error "object is not subscriptable"

/-- Python string subscription `v[k]`.  Dicts look the key up (`KeyError`
when missing); sequences raise a `TypeError` whose text matters only for the
tuple case, where it is surfaced by the submit handler. -/
def pyKeyGet : PyVal → String → Except String PyVal
  | .pdict fields, k =>
      match List.lookup k fields with
      | some v => .ok v
      | none => .error ("KeyError: " ++ k)
  | .ptuple _, _ => .error "tuple indices must be integers or slices, not str"
  | .plist _, _ => .error "list indices must be integers or slices, not str"
  | .pstr _, _ => .error "string indices must be integers"
  | .pbytes _, _ => .error "byte indices must be integers or slices, not str"
  | .pobj _, _ => .error "object is not subscriptable"
  | .pnone, _ => .error "NoneType object is not subscriptable"
  | .pint _, _ => .error "int object is not subscriptable"

/-- Python dict method `v.get(k)` (default `None`).  Only dicts have it;
on every other value the attribute lookup of `get` itself raises. -/
def pyGet : PyVal → String → Except String PyVal
  | .pdict fields, k =>
      .ok (match List.lookup k fields with
           | some v => v
           | none => .pnone)
  | _, _ => .error "object has no attribute get"

/-- Python truthiness: empty strings, zero, `None` and empty collections are
falsy; any object is truthy. -/
def pyTruthy : PyVal → Bool
  | .pstr s => !s.data.isEmpty
  | .pint n => n != 0
  | .pnone => false
  | .pbytes bs => !bs.isEmpty
  | .plist xs => !xs.isEmpty
  | .ptuple xs => !xs.isEmpty
  | .pdict fields => !fields.isEmpty
  | .pobj _ => true

/-- Python `str(v)`.  Strings render as themselves, ints in decimal, `None`
as `None`; the exact rendering of compound values is abstracted (no claim
depends on its text). -/
def pyStr : PyVal → String
  | .pstr s => s
  | .pint n => toString n
  | .pnone => "None"
  | .pbytes _ => "<bytes>"
  | .plist _ => "<list>"
  | .ptuple _ => "<tuple>"
  | .pdict _ => "<dict>"
  | .pobj _ => "<object>"

/-- Python `str.strip()` as applied to the typed question (line 142):
drop leading and trailing whitespace.  Implemented over the character list
so that it evaluates definitionally; for the ASCII whitespace occurring
here it agrees with Python. -/
def pyStrip (s : String) : String :=
  String.mk (((s.data.dropWhile Char.isWhitespace).reverse.dropWhile
    Char.isWhitespace).reverse)

/-- Python `s.startswith(p)`, over the character lists so that it evaluates
definitionally. -/
def pyStartsWith (s p : String) : Bool :=
  List.isPrefixOf p.data s.data

/-- Strategy (a) of `safe_get_assistant_text` (line 42):
`response.choices[0].message.content` by attribute access. -/
def chat_attr_path (r : PyVal) : Except String PyVal := do
  let cs ← getAttr r "choices"
  let c0 ← pyIndex cs 0
  let m ← getAttr c0 "message"
  getAttr m "content"

/-- Strategy (b) (line 46): `response.choices[0].message["content"]`. -/
def chat_key_path (r : PyVal) : Except String PyVal := do
  let cs ← getAttr r "choices"
  let c0 ← pyIndex cs 0
  let m ← getAttr c0 "message"
  pyKeyGet m "content"

/-- Strategy (c) (line 49): `response.choices[0]["message"]["content"]`. -/
def chat_indexed_path (r : PyVal) : Except String PyVal := do
  let cs ← getAttr r "choices"
  let c0 ← pyIndex cs 0
  let m ← pyKeyGet c0 "message"
  pyKeyGet m "content"

/-- Lines 35-52: extract the assistant text from a chat-completion response,
trying the three access paths in order and falling back to `str(response)`.
The nested `try`/`except` of the source is the nested match here; the
function is total, so no input makes it raise. -/
def safe_get_assistant_text (r : PyVal) : PyVal :=
  match chat_attr_path r with
  | .ok v => v
  | .error _ =>
      match chat_key_path r with
      | .ok v => v
      | .error _ =>
          match chat_indexed_path r with
          | .ok v => v
          | .error _ => .pstr (pyStr r)

/-- Lines 54-58: `getattr(transcription, "text", None) or transcription.get("text")`,
with any exception (for values with no `get` method) turned into `None`. -/
def safe_get_transcription_text (t : PyVal) : PyVal :=
  let a := getAttrD t "text" .pnone
  if pyTruthy a then a
  else
    match pyGet t "text" with
    | .ok v => v
    | .error _ => .pnone

/-- Lines 60-79: extract audio bytes from a speech response.  A bound
`read` method is modelled by the stored attribute value (the bytes the call
would return).  `None` signals that no strategy matched. -/
def safe_get_audio_bytes (r : PyVal) : Option PyVal :=
  if hasAttr r "read" then (getAttr r "read").toOption
  else if hasAttr r "content" then (getAttr r "content").toOption
  else
    match r with
    | .pbytes bs => some (.pbytes bs)
    | .pdict fields =>
        match List.lookup "audio" fields with
        | some v => some v
        | none =>
            match List.lookup "data" fields with
            | some v => some v
            | none =>
                match List.lookup "content" fields with
                | some v => some v
                | none => none
    | _ => none

/-- Message roles of the conversation state. -/
inductive Role where
  | system
  | user
  | assistant
deriving DecidableEq

/-- One entry of `st.session_state.messages`. -/
structure Message where
  role : Role
  content : PyVal

/-- Lines 26-30: the persona system prompt. -/
def SYSTEM_PROMPT : String :=
  "\nYou are William Shakespeare, the exceptionally brilliant and literary genius of the English drama.\nAnswer questions about your plays, sonnets, and characters using wit, sharp humour, confidence,\nand deep literary insight. Focus strictly on Shakespearean literature.\n"

/-- The message inserted at position 0 by line 139. -/
def systemMessage : Message :=
  { role := .system, content := .pstr SYSTEM_PROMPT }

/-- Line 138: `any(m["role"] == "system" for m in st.session_state.messages)`. -/
def hasSystem (ms : List Message) : Bool :=
  ms.any (fun m => m.role == Role.system)

/-- Lines 137-139: insert the system prompt at position 0 when absent. -/
def insertSystemIfAbsent (ms : List Message) : List Message :=
  if hasSystem ms then ms else systemMessage :: ms

/-- Line 175: append the user question. -/
def appendUser (ms : List Message) (q : PyVal) : List Message :=
  ms ++ [{ role := .user, content := q }]

/-- Line 189: append the assistant reply. -/
def appendAssistant (ms : List Message) (r : PyVal) : List Message :=
  ms ++ [{ role := .assistant, content := r }]

/-- Line 128: clear the conversation. -/
def clearMessages : List Message :=
  []

/-- Number of system messages in the state. -/
def sysCount (ms : List Message) : Nat :=
  (ms.filter (fun m => m.role == Role.system)).length

/-- The invariant claimed for the conversation state: at most one system
message, and any system message sits at position 0. -/
def StateInv (ms : List Message) : Prop :=
  sysCount ms ≤ 1 ∧ ∀ i, ∀ h : i < ms.length, (ms.get ⟨i, h⟩).role = Role.system → i = 0

/-- Lines 194-200: the voice-style table as the dict literal spells it. -/
def voice_map_dict : List (String × String) :=
  [("Dramatic Stage Voice", "alloy"),
   ("Warm, Noble Bard", "verse"),
   ("Aged Shakespeare", "sage"),
   ("Playful Jester", "spark"),
   ("Royal Court Voice", "duet"),
   ("Whispered Bard", "whisper")]

/-- The `voice_map` variable as the source actually builds it: the trailing
comma on line 200 wraps the dict in a 1-tuple. -/
def voice_map : PyVal :=
  .ptuple [.pdict (voice_map_dict.map (fun kv => (kv.1, .pstr kv.2)))]

/-- UI effects the submit handler emits, in order. -/
inductive UIEvent where
  | info (s : String)
  | warning (s : String)
  | error (s : String)
  | success (s : String)
  | markdown (s : String)
  | writeText (s : String)
  | audioOut (v : PyVal)

/-- The form inputs of one submission plus the outcomes of the (up to)
three remote calls, so that the handler is a pure function of them. -/
structure SubmitInput where
  api_key : String
  typed : String
  voice_file : Bool
  voice_style : String
  transcriptionResult : Except String PyVal
  chatResult : Except String PyVal
  speechResult : Except String PyVal

/-- Observable outcome of one submission: the new conversation state, the
emitted UI events, which remote calls were attempted, and the last value of
the `final_question` variable (absent when the key gate blocked). -/
structure SubmitOutput where
  messages : List Message
  events : List UIEvent
  finalQuestion : Option PyVal
  transcriptionCalled : Bool
  chatCalled : Bool
  speechCalled : Bool

/-- Line 132: `if not api_key or not api_key.startswith("sk-")`. -/
def apiKeyRejected (k : String) : Bool :=
  (k == "") || !(pyStartsWith k "sk-")

/-- Sidebar credential indicator, lines 17-22. -/
inductive SidebarStatus where
  | good
  | badFormat
  | askKey
deriving DecidableEq

/-- Lines 17-22: the sidebar format check; the only place the minimum
length is tested. -/
def sidebarStatus (k : String) : SidebarStatus :=
  if (k != "") && pyStartsWith k "sk-" && decide (k.data.length > 40) then .good
  else if k != "" then .badFormat
  else .askKey

/-- Lines 142-168: compute the `final_question` variable and the UI events
of the transcription phase.  Returns (final question, events, whether the
transcription call was attempted). -/
def transcriptionPhase (typed : String) (voice_file : Bool)
    (tr : Except String PyVal) : PyVal × List UIEvent × Bool :=
  let fq0 : PyVal := .pstr (pyStrip typed)
  match voice_file, tr with
  | false, _ => (fq0, [], false)
  | true, .error e =>
      (fq0, [.info "Transcribing audio…", .error ("Transcription failed: " ++ e)], true)
  | true, .ok resp =>
      let t := safe_get_transcription_text resp
      if pyTruthy t then
        (t, [.info "Transcribing audio…", .markdown ("**Transcribed:** " ++ pyStr t)], true)
      else
        (fq0, [.info "Transcribing audio…",
               .warning "Could not extract transcription text; using typed input if available."],
         true)

/-- Lines 131-219: the submit handler.  The key gate, lazy system-prompt
insertion, transcription phase, empty-question halt (`st.stop`), chat call
with its outer `try`/`except`, and the voice lookup.  The text-to-speech
block (lines 203-216) appears here with its evident intended indentation —
as committed that block fails to parse — and is unreachable in any case, because
`voice_map[voice_style]` on the 1-tuple raises first and control jumps to
the outer handler on line 218. -/
def runSubmit (inp : SubmitInput) (msgs0 : List Message) : SubmitOutput :=
  if apiKeyRejected inp.api_key then
    { messages := msgs0
      events := [.warning "Enter a valid OpenAI API key in the sidebar."]
      finalQuestion := none
      transcriptionCalled := false
      chatCalled := false
      speechCalled := false }
  else
    let msgs1 := insertSystemIfAbsent msgs0
    let ph := transcriptionPhase inp.typed inp.voice_file inp.transcriptionResult
    let fq := ph.1
    let ev1 := ph.2.1
    let transCalled := ph.2.2
    if !pyTruthy fq then
      { messages := msgs1
        events := ev1 ++ [.warning "Provide a typed question or upload a voice file."]
        finalQuestion := some fq
        transcriptionCalled := transCalled
        chatCalled := false
        speechCalled := false }
    else
      let msgs2 := appendUser msgs1 fq
      match inp.chatResult with
      | .error e =>
          { messages := msgs2
            events := ev1 ++ [.error ("OpenAI request failed: " ++ e)]
            finalQuestion := some fq
            transcriptionCalled := transCalled
            chatCalled := true
            speechCalled := false }
      | .ok resp =>
          let reply := safe_get_assistant_text resp
          let msgs3 := appendAssistant msgs2 reply
          let ev2 := ev1 ++ [.success "Here’s what The Bard says:", .writeText (pyStr reply)]
          match pyKeyGet voice_map inp.voice_style with
          | .error e =>
              { messages := msgs3
                events := ev2 ++ [.error ("OpenAI request failed: " ++ e)]
                finalQuestion := some fq
                transcriptionCalled := transCalled
                chatCalled := true
                speechCalled := false }
          | .ok _ =>
              match inp.speechResult with
              | .error e =>
                  { messages := msgs3
                    events := ev2 ++ [.warning ("TTS generation failed: " ++ e)]
                    finalQuestion := some fq
                    transcriptionCalled := transCalled
                    chatCalled := true
                    speechCalled := true }
              | .ok aresp =>
                  match safe_get_audio_bytes aresp with
                  | some b =>
                      { messages := msgs3
                        events := ev2 ++ [.audioOut b]
                        finalQuestion := some fq
                        transcriptionCalled := transCalled
                        chatCalled := true
                        speechCalled := true }
                  | none =>
                      { messages := msgs3
                        events := ev2 ++
                          [.warning "Audio generation returned no bytes; reply shown as text only."]
                        finalQuestion := some fq
                        transcriptionCalled := transCalled
                        chatCalled := true
                        speechCalled := true }

/-! ## Helper lemmas -/

/-- The voice lookup on line 201 always raises: `voice_map` is a 1-tuple,
not a dict, so string subscription is a `TypeError` for every label. -/
theorem voice_map_lookup_raises (label : String) :
    pyKeyGet voice_map label = .error "tuple indices must be integers or slices, not str" :=
  rfl

/-! ## C4 -/

/-- C4: the six fixed voice-style labels.  As the claim intends, the dict
literal of lines 194-200 maps every label to a non-empty provider voice
identifier; but the `voice_map` the program actually builds is a 1-tuple
(trailing comma on line 200), so the lookup `voice_map[voice_style]` on
line 201 raises a `TypeError` for every one of the six labels instead of
succeeding. -/
theorem voice_style_lookup_evaluation :
    (pyKeyGet voice_map "Dramatic Stage Voice"
        = .error "tuple indices must be integers or slices, not str") ∧
    (pyKeyGet voice_map "Warm, Noble Bard"
        = .error "tuple indices must be integers or slices, not str") ∧
    (pyKeyGet voice_map "Aged Shakespeare"
        = .error "tuple indices must be integers or slices, not str") ∧
    (pyKeyGet voice_map "Playful Jester"
        = .error "tuple indices must be integers or slices, not str") ∧
    (pyKeyGet voice_map "Royal Court Voice"
        = .error "tuple indices must be integers or slices, not str") ∧
    (pyKeyGet voice_map "Whispered Bard"
        = .error "tuple indices must be integers or slices, not str") ∧
    List.lookup "Dramatic Stage Voice" voice_map_dict = some "alloy" ∧
    List.lookup "Warm, Noble Bard" voice_map_dict = some "verse" ∧
    List.lookup "Aged Shakespeare" voice_map_dict = some "sage" ∧
    List.lookup "Playful Jester" voice_map_dict = some "spark" ∧
    List.lookup "Royal Court Voice" voice_map_dict = some "duet" ∧
    List.lookup "Whispered Bard" voice_map_dict = some "whisper" ∧
    "alloy" ≠ "" ∧ "verse" ≠ "" ∧ "sage" ≠ "" ∧
    "spark" ≠ "" ∧ "duet" ≠ "" ∧ "whisper" ≠ "" := by
  refine ⟨rfl, rfl, rfl, rfl, rfl, rfl, ?_, ?_, ?_, ?_, ?_, ?_, ?_, ?_, ?_, ?_, ?_, ?_⟩
    <;> decide

/-! ## C3 -/

/-- A submission whose chat call succeeds and whose speech call would
raise, used to evaluate the text-to-speech path. -/
def c3Input : SubmitInput :=
  { api_key := "sk-abc"
    typed := "What is tragedy?"
    voice_file := false
    voice_style := "Dramatic Stage Voice"
    transcriptionResult := .ok .pnone
    chatResult := .ok (.pobj [("choices",
      .plist [.pobj [("message", .pobj [("content", .pstr "Alas, poor Yorick")])]])])
    speechResult := .error "tts down" }

/-- C3: on a submission where the chat completion succeeds, the assistant
reply is appended and shown as text and no audio is produced — but the
speech step is never even attempted and the failure surfaces as the fatal
error `OpenAI request failed: ...` from the outer handler, not as the
non-fatal `TTS generation failed` warning the claim (and lines 215-216)
describe: the voice lookup on line 201 raises first, and the TTS block
below it fails to parse as committed. -/
theorem tts_failure_surfaced_as_error :
    (runSubmit c3Input []).messages =
      [systemMessage,
       { role := .user, content := .pstr "What is tragedy?" },
       { role := .assistant, content := .pstr "Alas, poor Yorick" }] ∧
    (runSubmit c3Input []).events =
      [.success "Here’s what The Bard says:",
       .writeText "Alas, poor Yorick",
       .error "OpenAI request failed: tuple indices must be integers or slices, not str"] ∧
    (runSubmit c3Input []).chatCalled = true ∧
    (runSubmit c3Input []).speechCalled = false :=
  ⟨rfl, rfl, rfl, rfl⟩

/-! ## C1: counterexample -/

/-- Submission with both a typed question (carrying outer whitespace) and
an audio file whose transcription raises. -/
def c1Input : SubmitInput :=
  { api_key := "sk-abc"
    typed := " What is tragedy? "
    voice_file := true
    voice_style := "Dramatic Stage Voice"
    transcriptionResult := .error "network down"
    chatResult := .error "offline"
    speechResult := .ok .pnone }

/-- C1 counterexample: when transcription raises, the final question is the
stripped typed text (line 142 applies `.strip()`), which differs from the
typed text itself when that text carries outer whitespace. -/
theorem tie_break_strip_counterexample :
    (runSubmit c1Input []).finalQuestion = some (.pstr "What is tragedy?") ∧
    c1Input.typed = " What is tragedy? " ∧
    c1Input.voice_file = true ∧
    c1Input.transcriptionResult = .error "network down" ∧
    PyVal.pstr "What is tragedy?" ≠ PyVal.pstr " What is tragedy? " := by
  refine ⟨rfl, rfl, rfl, rfl, ?_⟩
  intro h
  injection h with h2
  exact absurd h2 (by decide)

/-! ## C2: counterexample -/

/-- Submission with empty typed text and an audio file whose transcription
raises, starting from an empty conversation. -/
def c2Input : SubmitInput :=
  { api_key := "sk-abc"
    typed := ""
    voice_file := true
    voice_style := "Dramatic Stage Voice"
    transcriptionResult := .error "boom"
    chatResult := .ok .pnone
    speechResult := .ok .pnone }

/-- C2 counterexample: the submission does halt before the chat step, but
the conversation state is not unchanged — lines 137-139 insert the system
prompt before the transcription attempt, so the state grows from `[]` to
`[systemMessage]`. -/
theorem empty_input_system_insert_counterexample :
    (runSubmit c2Input []).messages = [systemMessage] ∧
    (runSubmit c2Input []).chatCalled = false ∧
    [systemMessage] ≠ ([] : List Message) :=
  ⟨rfl, rfl, List.cons_ne_nil _ _⟩

/-! ## C10: counterexample -/

/-- C10 counterexample: a mapping-shaped transcription response whose
`text` key holds the empty string.  Line 56 returns the result of
`transcription.get("text")` — the empty string itself — rather than the
`None` no-transcript signal. -/
theorem empty_transcript_dict_counterexample :
    safe_get_transcription_text (.pdict [("text", .pstr "")]) = .pstr "" ∧
    PyVal.pstr "" ≠ PyVal.pnone :=
  ⟨rfl, fun h => nomatch h⟩

/-! ## C5 -/

/-- C5: the chat-response text extraction tries, in order, the attribute
path `choices[0].message.content`, the same path with key access on the
message, the indexed/key variant on `choices[0]`, and finally the
stringification of the whole response; it returns the first strategy that
succeeds.  The function is total, so no input makes it raise. -/
theorem assistant_text_extraction_order (r : PyVal) :
    (∀ v, chat_attr_path r = .ok v → safe_get_assistant_text r = v) ∧
    (∀ v, (chat_attr_path r).toOption = none → chat_key_path r = .ok v →
        safe_get_assistant_text r = v) ∧
    (∀ v, (chat_attr_path r).toOption = none → (chat_key_path r).toOption = none →
        chat_indexed_path r = .ok v → safe_get_assistant_text r = v) ∧
    ((chat_attr_path r).toOption = none → (chat_key_path r).toOption = none →
        (chat_indexed_path r).toOption = none →
        safe_get_assistant_text r = .pstr (pyStr r)) := by
  refine ⟨?_, ?_, ?_, ?_⟩
  · intro v h
    simp [safe_get_assistant_text, h]
  · intro v h1 h2
    cases ha : chat_attr_path r with
    | ok w => rw [ha] at h1; exact absurd h1 (by simp [Except.toOption])
    | error s => simp [safe_get_assistant_text, ha, h2]
  · intro v h1 h2 h3
    cases ha : chat_attr_path r with
    | ok w => rw [ha] at h1; exact absurd h1 (by simp [Except.toOption])
    | error s =>
        cases hb : chat_key_path r with
        | ok w => rw [hb] at h2; exact absurd h2 (by simp [Except.toOption])
        | error t => simp [safe_get_assistant_text, ha, hb, h3]
  · intro h1 h2 h3
    cases ha : chat_attr_path r with
    | ok w => rw [ha] at h1; exact absurd h1 (by simp [Except.toOption])
    | error s =>
        cases hb : chat_key_path r with
        | ok w => rw [hb] at h2; exact absurd h2 (by simp [Except.toOption])
        | error t =>
            cases hc : chat_indexed_path r with
            | ok w => rw [hc] at h3; exact absurd h3 (by simp [Except.toOption])
            | error u => simp [safe_get_assistant_text, ha, hb, hc]

/-- Witness for C5: the four response shapes of the specification —
attribute chain, key chain on the message, indexed chain, and an
unparseable value that falls back to its stringification. -/
theorem assistant_text_extraction_order_witness :
    safe_get_assistant_text (.pobj [("choices", .plist [.pobj [("message",
        .pobj [("content", .pstr "attr text")])]])]) = .pstr "attr text" ∧
    safe_get_assistant_text (.pobj [("choices", .plist [.pobj [("message",
        .pdict [("content", .pstr "key text")])]])]) = .pstr "key text" ∧
    safe_get_assistant_text (.pobj [("choices", .plist [.pdict [("message",
        .pdict [("content", .pstr "indexed text")])]])]) = .pstr "indexed text" ∧
    safe_get_assistant_text .pnone = .pstr "None" :=
  ⟨(assistant_text_extraction_order _).1 _ rfl,
   (assistant_text_extraction_order _).2.1 _ rfl rfl,
   (assistant_text_extraction_order _).2.2.1 _ rfl rfl rfl,
   (assistant_text_extraction_order _).2.2.2 rfl rfl rfl⟩

/-! ## C6 -/

/-- C6: the audio-response binary extraction returns, in order: the result
of the `read` method when present; else the `content` attribute when
present; else the value itself when it is a byte sequence; else, for a
mapping, the first present value among the keys `audio`, `data`,
`content`; and `None` when no strategy matches.  The function is total, so
no input makes it raise. -/
theorem audio_bytes_extraction_order (r : PyVal) :
    (∀ v, getAttr r "read" = .ok v → safe_get_audio_bytes r = some v) ∧
    (hasAttr r "read" = false → ∀ v, getAttr r "content" = .ok v →
        safe_get_audio_bytes r = some v) ∧
    (∀ bs, r = .pbytes bs → safe_get_audio_bytes r = some (.pbytes bs)) ∧
    (∀ fields v, r = .pdict fields → List.lookup "audio" fields = some v →
        safe_get_audio_bytes r = some v) ∧
    (∀ fields v, r = .pdict fields → List.lookup "audio" fields = none →
        List.lookup "data" fields = some v → safe_get_audio_bytes r = some v) ∧
    (∀ fields v, r = .pdict fields → List.lookup "audio" fields = none →
        List.lookup "data" fields = none → List.lookup "content" fields = some v →
        safe_get_audio_bytes r = some v) ∧
    (∀ fields, r = .pdict fields → List.lookup "audio" fields = none →
        List.lookup "data" fields = none → List.lookup "content" fields = none →
        safe_get_audio_bytes r = none) ∧
    (hasAttr r "read" = false → hasAttr r "content" = false →
        (∀ bs, r ≠ .pbytes bs) → (∀ fields, r ≠ .pdict fields) →
        safe_get_audio_bytes r = none) := by
  refine ⟨?_, ?_, ?_, ?_, ?_, ?_, ?_, ?_⟩
  · intro v h
    simp [safe_get_audio_bytes, hasAttr, h, Except.toOption]
  · intro h1 v h2
    simp only [safe_get_audio_bytes, h1]
    simp [hasAttr, h2, Except.toOption]
  · intro bs h
    subst h
    rfl
  · intro fields v h hl
    subst h
    simp [safe_get_audio_bytes, hasAttr, getAttr, hl]
  · intro fields v h h1 h2
    subst h
    simp [safe_get_audio_bytes, hasAttr, getAttr, h1, h2]
  · intro fields v h h1 h2 h3
    subst h
    simp [safe_get_audio_bytes, hasAttr, getAttr, h1, h2, h3]
  · intro fields h h1 h2 h3
    subst h
    simp [safe_get_audio_bytes, hasAttr, getAttr, h1, h2, h3]
  · intro h1 h2 h3 h4
    cases r with
    | pbytes bs => exact absurd rfl (h3 bs)
    | pdict fields => exact absurd rfl (h4 fields)
    | pstr s => simp [safe_get_audio_bytes, hasAttr, getAttr]
    | pint n => simp [safe_get_audio_bytes, hasAttr, getAttr]
    | pnone => simp [safe_get_audio_bytes, hasAttr, getAttr]
    | plist xs => simp [safe_get_audio_bytes, hasAttr, getAttr]
    | ptuple xs => simp [safe_get_audio_bytes, hasAttr, getAttr]
    | pobj attrs => simp [safe_get_audio_bytes, h1, h2]

/-- Witness for C6: the shapes of the specification — a readable wrapper,
a `content`-bearing wrapper, raw bytes, a dict keyed by `data`, and an
unmatched value yielding `None`. -/
theorem audio_bytes_extraction_order_witness :
    safe_get_audio_bytes (.pobj [("read", .pbytes [1, 2, 3])]) = some (.pbytes [1, 2, 3]) ∧
    safe_get_audio_bytes (.pobj [("content", .pbytes [4])]) = some (.pbytes [4]) ∧
    safe_get_audio_bytes (.pbytes [5, 6]) = some (.pbytes [5, 6]) ∧
    safe_get_audio_bytes (.pdict [("data", .pbytes [7])]) = some (.pbytes [7]) ∧
    safe_get_audio_bytes (.pstr "nope") = none :=
  ⟨(audio_bytes_extraction_order (.pobj [("read", .pbytes [1, 2, 3])])).1 _ rfl,
   (audio_bytes_extraction_order (.pobj [("content", .pbytes [4])])).2.1 rfl _ rfl,
   (audio_bytes_extraction_order (.pbytes [5, 6])).2.2.1 _ rfl,
   (audio_bytes_extraction_order (.pdict [("data", .pbytes [7])])).2.2.2.2.1 _ _ rfl rfl rfl,
   (audio_bytes_extraction_order (.pstr "nope")).2.2.2.2.2.2.2 rfl rfl
     (fun _ h => nomatch h) (fun _ h => nomatch h)⟩

/-! ## More helper lemmas -/

/-- When the key gate passes, the final question is exactly the first
component of the transcription phase, whatever the chat and speech
outcomes are. -/
theorem runSubmit_finalQuestion (inp : SubmitInput) (msgs0 : List Message)
    (hk : apiKeyRejected inp.api_key = false) :
    (runSubmit inp msgs0).finalQuestion =
      some (transcriptionPhase inp.typed inp.voice_file inp.transcriptionResult).1 := by
  obtain ⟨k, typed, vf, style, tr, ch, sp⟩ := inp
  cases hq : pyTruthy (transcriptionPhase typed vf tr).1 with
  | false => simp [runSubmit, hk, hq]
  | true =>
      cases ch with
      | error e => simp [runSubmit, hk, hq]
      | ok resp => simp [runSubmit, hk, hq, voice_map_lookup_raises]

/-- The key gate of line 132 passes exactly when the credential is
non-empty and carries the `sk-` marker. -/
theorem apiKeyRejected_false_iff (k : String) :
    apiKeyRejected k = false ↔ (k ≠ "" ∧ pyStartsWith k "sk-" = true) := by
  simp [apiKeyRejected]

/-! ## C1 -/

/-- C1 (amended): with both typed text and an audio file supplied, a
transcription whose extracted text is truthy becomes the final question;
when transcription raises, or its extracted text is falsy, the final
question is the typed text after `.strip()` (line 142) — the stripped
typed text rather than the typed text verbatim. -/
theorem tie_break_final_question (k typed style : String)
    (tr ch sp : Except String PyVal) (msgs0 : List Message)
    (hk : apiKeyRejected k = false) :
    (∀ resp, tr = .ok resp → pyTruthy (safe_get_transcription_text resp) = true →
        (runSubmit ⟨k, typed, true, style, tr, ch, sp⟩ msgs0).finalQuestion =
          some (safe_get_transcription_text resp)) ∧
    (∀ e, tr = .error e →
        (runSubmit ⟨k, typed, true, style, tr, ch, sp⟩ msgs0).finalQuestion =
          some (.pstr (pyStrip typed))) ∧
    (∀ resp, tr = .ok resp → pyTruthy (safe_get_transcription_text resp) = false →
        (runSubmit ⟨k, typed, true, style, tr, ch, sp⟩ msgs0).finalQuestion =
          some (.pstr (pyStrip typed))) := by
  refine ⟨?_, ?_, ?_⟩
  · intro resp hresp ht
    subst hresp
    rw [runSubmit_finalQuestion _ _ hk]
    simp [transcriptionPhase, ht]
  · intro e he
    subst he
    rw [runSubmit_finalQuestion _ _ hk]
    simp [transcriptionPhase]
  · intro resp hresp ht
    subst hresp
    rw [runSubmit_finalQuestion _ _ hk]
    simp [transcriptionPhase, ht]

/-- Witness for C1: a successful transcription wins over the typed text,
and a raising transcription falls back to the (already stripped) typed
text. -/
theorem tie_break_final_question_witness :
    (runSubmit ⟨"sk-abc", "ignored", true, "Playful Jester",
        .ok (.pobj [("text", .pstr "Who is Hamlet?")]), .error "offline",
        .ok .pnone⟩ []).finalQuestion = some (.pstr "Who is Hamlet?") ∧
    (runSubmit ⟨"sk-abc", "What is tragedy?", true, "Playful Jester",
        .error "mic broke", .error "offline",
        .ok .pnone⟩ []).finalQuestion = some (.pstr "What is tragedy?") :=
  ⟨(tie_break_final_question "sk-abc" "ignored" "Playful Jester"
      (.ok (.pobj [("text", .pstr "Who is Hamlet?")])) (.error "offline")
      (.ok .pnone) [] rfl).1 _ rfl rfl,
   (tie_break_final_question "sk-abc" "What is tragedy?" "Playful Jester"
      (.error "mic broke") (.error "offline")
      (.ok .pnone) [] rfl).2.1 _ rfl⟩

/-! ## C2 -/

/-- C2 (amended): with empty typed text and an audio file whose
transcription raises, the submission halts before the chat step (no chat
or speech call, and the empty-input warning is emitted) and no user or
assistant message is appended — but the state is not untouched in general:
lines 137-139 insert the system prompt first when it is absent, so the
resulting state is `insertSystemIfAbsent` of the old one, and only a state
that already carries a system message is left unchanged. -/
theorem empty_input_halts_before_chat (k style e : String)
    (ch sp : Except String PyVal) (msgs0 : List Message)
    (hk : apiKeyRejected k = false) :
    (runSubmit ⟨k, "", true, style, .error e, ch, sp⟩ msgs0).chatCalled = false ∧
    (runSubmit ⟨k, "", true, style, .error e, ch, sp⟩ msgs0).speechCalled = false ∧
    (runSubmit ⟨k, "", true, style, .error e, ch, sp⟩ msgs0).messages =
      insertSystemIfAbsent msgs0 ∧
    (runSubmit ⟨k, "", true, style, .error e, ch, sp⟩ msgs0).events =
      [.info "Transcribing audio…", .error ("Transcription failed: " ++ e),
       .warning "Provide a typed question or upload a voice file."] ∧
    (hasSystem msgs0 = true →
        (runSubmit ⟨k, "", true, style, .error e, ch, sp⟩ msgs0).messages = msgs0) := by
  have hq : pyTruthy (.pstr (pyStrip "")) = false := rfl
  refine ⟨?_, ?_, ?_, ?_, ?_⟩
  · simp [runSubmit, hk, transcriptionPhase, hq]
  · simp [runSubmit, hk, transcriptionPhase, hq]
  · simp [runSubmit, hk, transcriptionPhase, hq]
  · simp [runSubmit, hk, transcriptionPhase, hq]
  · intro hs
    simp [runSubmit, hk, transcriptionPhase, hq, insertSystemIfAbsent, hs]

/-- Witness for C2: concrete empty-text submission with raising
transcription, on a state that already holds the system prompt and a
previous exchange, which is left unchanged. -/
theorem empty_input_halts_before_chat_witness :
    (runSubmit ⟨"sk-abc", "", true, "Playful Jester", .error "boom", .ok .pnone,
        .ok .pnone⟩ [systemMessage]).chatCalled = false ∧
    (runSubmit ⟨"sk-abc", "", true, "Playful Jester", .error "boom", .ok .pnone,
        .ok .pnone⟩ [systemMessage]).messages = [systemMessage] :=
  ⟨(empty_input_halts_before_chat "sk-abc" "Playful Jester" "boom" (.ok .pnone)
      (.ok .pnone) [systemMessage] rfl).1,
   (empty_input_halts_before_chat "sk-abc" "Playful Jester" "boom" (.ok .pnone)
      (.ok .pnone) [systemMessage] rfl).2.2.2.2 rfl⟩

/-! ## C7 -/

/-- C7: when the chat-completion call raises, the speech step is never
attempted and the exception text is surfaced to the user inside the error
`OpenAI request failed: ...` emitted by the handler on line 219. -/
theorem chat_failure_halts_speech (k typed style e : String) (vf : Bool)
    (tr sp : Except String PyVal) (msgs0 : List Message)
    (hk : apiKeyRejected k = false)
    (hq : pyTruthy (transcriptionPhase typed vf tr).1 = true) :
    (runSubmit ⟨k, typed, vf, style, tr, .error e, sp⟩ msgs0).chatCalled = true ∧
    (runSubmit ⟨k, typed, vf, style, tr, .error e, sp⟩ msgs0).speechCalled = false ∧
    UIEvent.error ("OpenAI request failed: " ++ e) ∈
      (runSubmit ⟨k, typed, vf, style, tr, .error e, sp⟩ msgs0).events := by
  refine ⟨?_, ?_, ?_⟩ <;> simp [runSubmit, hk, hq]

/-- Witness for C7: a typed-only submission whose chat call raises with the
message `rate limited`. -/
theorem chat_failure_halts_speech_witness :
    (runSubmit ⟨"sk-abc", "Hi", false, "Playful Jester", .ok .pnone,
        .error "rate limited", .ok .pnone⟩ []).speechCalled = false ∧
    UIEvent.error "OpenAI request failed: rate limited" ∈
      (runSubmit ⟨"sk-abc", "Hi", false, "Playful Jester", .ok .pnone,
        .error "rate limited", .ok .pnone⟩ []).events :=
  ⟨(chat_failure_halts_speech "sk-abc" "Hi" "Playful Jester" "rate limited" false
      (.ok .pnone) (.ok .pnone) [] rfl rfl).2.1,
   (chat_failure_halts_speech "sk-abc" "Hi" "Playful Jester" "rate limited" false
      (.ok .pnone) (.ok .pnone) [] rfl rfl).2.2⟩

/-! ## C8 -/

/-- C8 (amended): the submit gate of line 132 lets a submission into the
remote-call pipeline exactly when the credential is non-empty and starts
with `sk-`; a rejected credential blocks the submission entirely with an
inline warning and no remote call or state change; the minimum length
(more than 40 characters) is tested only by the sidebar indicator of
lines 17-22, never by the submit gate; and no step of the gate contacts
the live service. -/
theorem credential_gate_format_only (k typed style : String) (vf : Bool)
    (tr ch sp : Except String PyVal) (msgs0 : List Message) :
    ((runSubmit ⟨k, typed, vf, style, tr, ch, sp⟩ msgs0).finalQuestion.isSome = true ↔
        (k ≠ "" ∧ pyStartsWith k "sk-" = true)) ∧
    (apiKeyRejected k = true →
        (runSubmit ⟨k, typed, vf, style, tr, ch, sp⟩ msgs0).messages = msgs0 ∧
        (runSubmit ⟨k, typed, vf, style, tr, ch, sp⟩ msgs0).events =
          [.warning "Enter a valid OpenAI API key in the sidebar."] ∧
        (runSubmit ⟨k, typed, vf, style, tr, ch, sp⟩ msgs0).transcriptionCalled = false ∧
        (runSubmit ⟨k, typed, vf, style, tr, ch, sp⟩ msgs0).chatCalled = false ∧
        (runSubmit ⟨k, typed, vf, style, tr, ch, sp⟩ msgs0).speechCalled = false) ∧
    (apiKeyRejected k = false ↔ (k ≠ "" ∧ pyStartsWith k "sk-" = true)) ∧
    (sidebarStatus k = .good ↔
        (k ≠ "" ∧ pyStartsWith k "sk-" = true ∧ k.data.length > 40)) := by
  refine ⟨?_, ?_, apiKeyRejected_false_iff k, ?_⟩
  · cases hr : apiKeyRejected k with
    | true =>
        simp only [runSubmit, hr, if_true]
        constructor
        · intro h
          simp at h
        · intro hR
          have h2 : apiKeyRejected k = false := (apiKeyRejected_false_iff k).mpr hR
          rw [hr] at h2
          exact absurd h2 (by simp)
    | false =>
        rw [runSubmit_finalQuestion _ _ hr]
        simpa using (apiKeyRejected_false_iff k).mp hr
  · intro hr
    refine ⟨?_, ?_, ?_, ?_, ?_⟩ <;> simp [runSubmit, hr]
  · unfold sidebarStatus
    split_ifs with h1 h2
    · simp only [Bool.and_eq_true, bne_iff_ne, decide_eq_true_eq] at h1
      simp only [true_iff]
      exact ⟨h1.1.1, h1.1.2, h1.2⟩
    · constructor
      · intro h
        exact absurd h (by simp)
      · intro hR
        exact absurd (by simp [Bool.and_eq_true, bne_iff_ne, decide_eq_true_eq]
          : ((k != "") && pyStartsWith k "sk-" && decide (k.data.length > 40)) = true
            ↔ (k ≠ "" ∧ pyStartsWith k "sk-" = true) ∧ k.data.length > 40)
          (fun hif => h1 (hif.mpr ⟨⟨hR.1, hR.2.1⟩, hR.2.2⟩))
    · constructor
      · intro h
        exact absurd h (by simp)
      · intro hR
        exact absurd hR.1 (by simpa using h2)

/-- Witness for C8: the empty credential is blocked with the inline
warning and no call is attempted. -/
theorem credential_gate_format_only_witness :
    (runSubmit ⟨"", "Hi", false, "Playful Jester", .ok .pnone, .ok .pnone,
        .ok .pnone⟩ []).chatCalled = false ∧
    (runSubmit ⟨"", "Hi", false, "Playful Jester", .ok .pnone, .ok .pnone,
        .ok .pnone⟩ []).events =
      [.warning "Enter a valid OpenAI API key in the sidebar."] :=
  ⟨((credential_gate_format_only "" "Hi" "Playful Jester" false (.ok .pnone)
      (.ok .pnone) (.ok .pnone) []).2.1 rfl).2.2.2.1,
   ((credential_gate_format_only "" "Hi" "Playful Jester" false (.ok .pnone)
      (.ok .pnone) (.ok .pnone) []).2.1 rfl).2.1⟩

/-- A short key that carries the `sk-` marker but is far below the
41-character minimum the sidebar checks. -/
def c8Input : SubmitInput :=
  { api_key := "sk-a"
    typed := "Hi"
    voice_file := false
    voice_style := "Playful Jester"
    transcriptionResult := .ok .pnone
    chatResult := .error "x"
    speechResult := .ok .pnone }

/-- C8 counterexample: the 4-character key `sk-a` fails the minimum-length
condition, yet the submission proceeds into the pipeline (the chat call is
attempted): the submit gate checks only the `sk-` marker, not the length. -/
theorem credential_gate_length_counterexample :
    (runSubmit c8Input []).chatCalled = true ∧
    c8Input.api_key = "sk-a" ∧
    decide ("sk-a".data.length > 40) = false ∧
    sidebarStatus "sk-a" = .badFormat :=
  ⟨rfl, rfl, rfl, rfl⟩

/-! ## C9 -/

/-- If the membership scan of line 138 finds no system message, no element
of the state has the system role. -/
theorem noSys_of_not_hasSystem {ms : List Message} (h : hasSystem ms = false) :
    ∀ m ∈ ms, m.role ≠ Role.system := by
  intro m hm
  have h2 := List.any_eq_false.mp h m hm
  simpa using h2

/-- A state whose tail is free of system messages satisfies the invariant:
the head is the only possible system message, so the count is at most one
and any system message sits first. -/
theorem stateInv_of_tail (ms : List Message)
    (h : ∀ m ∈ ms.tail, m.role ≠ Role.system) : StateInv ms := by
  cases ms with
  | nil =>
      exact ⟨by simp [sysCount], fun i hi _ => absurd hi (Nat.not_lt_zero i)⟩
  | cons a t =>
      have ht : t.filter (fun m => m.role == Role.system) = [] := by
        rw [List.filter_eq_nil_iff]
        intro m hm
        simpa using h m hm
      constructor
      · unfold sysCount
        rw [List.filter_cons]
        split
        · rw [ht]
          exact Nat.le.refl
        · rw [ht]
          exact Nat.zero_le 1
      · intro i hi hsys
        cases i with
        | zero => rfl
        | succ j =>
            exfalso
            have hj : j < t.length := by simpa using hi
            have hmem : t.get ⟨j, hj⟩ ∈ t := t.get_mem _ _
            exact h _ hmem hsys

/-- Conversely, under the invariant the tail is free of system messages. -/
theorem tail_noSys_of_stateInv {ms : List Message} (h : StateInv ms) :
    ∀ m ∈ ms.tail, m.role ≠ Role.system := by
  cases ms with
  | nil => intro m hm; simp at hm
  | cons a t =>
      intro m hm hsys
      obtain ⟨n, hget⟩ := List.mem_iff_get.mp hm
      have hlt : n.val + 1 < (a :: t).length := by
        simp only [List.length_cons]
        exact Nat.succ_lt_succ n.isLt
      have h0 := h.2 (n.val + 1) hlt (by
        show (t.get ⟨n.val, n.isLt⟩).role = Role.system
        have he : t.get ⟨n.val, n.isLt⟩ = m := hget
        rw [he]
        exact hsys)
      exact Nat.succ_ne_zero _ h0

/-- Appending a non-system message preserves the invariant. -/
theorem stateInv_append {ms : List Message} (h : StateInv ms) (x : Message)
    (hx : x.role ≠ Role.system) : StateInv (ms ++ [x]) := by
  apply stateInv_of_tail
  cases ms with
  | nil => intro m hm; simp at hm
  | cons a t =>
      intro m hm
      have hrw : ((a :: t) ++ [x]).tail = t ++ [x] := rfl
      rw [hrw] at hm
      rcases List.mem_append.mp hm with h1 | h2
      · exact tail_noSys_of_stateInv h m h1
      · have hmx : m = x := by simpa using h2
        rw [hmx]
        exact hx

/-- C9: every operation the handler performs on the conversation state —
the lazy system-prompt insertion of lines 137-139, the user and assistant
appends of lines 175 and 189, and the clear of line 128 — preserves the
invariant that at most one system message is present and that a system
message, when present, is the first element; and the insertion is
idempotent, so the system prompt is inserted at most once per session. -/
theorem conversation_state_invariant (ms : List Message) (q r : PyVal)
    (h : StateInv ms) :
    StateInv (insertSystemIfAbsent ms) ∧
    StateInv (appendUser ms q) ∧
    StateInv (appendAssistant ms r) ∧
    StateInv clearMessages ∧
    insertSystemIfAbsent (insertSystemIfAbsent ms) = insertSystemIfAbsent ms := by
  refine ⟨?_, ?_, ?_, ?_, ?_⟩
  · cases hs : hasSystem ms with
    | true => simpa [insertSystemIfAbsent, hs] using h
    | false =>
        have hnone := noSys_of_not_hasSystem hs
        simp only [insertSystemIfAbsent, hs, Bool.false_eq_true, if_false]
        exact stateInv_of_tail _ (by intro m hm; exact hnone m hm)
  · exact stateInv_append h _ (fun hh => Role.noConfusion hh)
  · exact stateInv_append h _ (fun hh => Role.noConfusion hh)
  · exact ⟨by simp [sysCount, clearMessages], fun i hi _ => absurd hi (by simp [clearMessages] at hi ⊢)⟩
  · cases hs : hasSystem ms with
    | true => simp [insertSystemIfAbsent, hs]
    | false =>
        have h1 : insertSystemIfAbsent ms = systemMessage :: ms := by
          rw [insertSystemIfAbsent, if_neg (by simp [hs])]
        rw [h1, insertSystemIfAbsent, if_pos (by simp [hasSystem, systemMessage])]

/-- Witness for C9: the invariant holds for the empty state and is kept by
inserting the system prompt, and the insertion is idempotent there. -/
theorem conversation_state_invariant_witness :
    StateInv (insertSystemIfAbsent []) ∧
    insertSystemIfAbsent (insertSystemIfAbsent []) = insertSystemIfAbsent [] :=
  ⟨(conversation_state_invariant [] .pnone .pnone
      ⟨Nat.zero_le 1, fun i hi _ => absurd hi (Nat.not_lt_zero i)⟩).1,
   (conversation_state_invariant [] .pnone .pnone
      ⟨Nat.zero_le 1, fun i hi _ => absurd hi (Nat.not_lt_zero i)⟩).2.2.2.2⟩

/-! ## C10 -/

/-- C10 (amended): an empty transcription never becomes the final question,
but not always through the no-transcript signal: an attribute-shaped
response whose `text` is the empty string yields `None` (the `get` probe of
line 56 raises and is swallowed), while a mapping-shaped response yields
the empty string itself; both are falsy, so the `if trans_text:` check of
line 157 rejects them and the typed-text fallback (or the empty-input
halt) applies. -/
theorem empty_transcript_never_final (attrs fields : List (String × PyVal))
    (k typed style : String) (ch sp : Except String PyVal) (msgs0 : List Message)
    (hk : apiKeyRejected k = false) :
    (List.lookup "text" attrs = some (.pstr "") →
        safe_get_transcription_text (.pobj attrs) = .pnone) ∧
    (List.lookup "text" fields = some (.pstr "") →
        safe_get_transcription_text (.pdict fields) = .pstr "") ∧
    (∀ resp, pyTruthy (safe_get_transcription_text resp) = false →
        (runSubmit ⟨k, typed, true, style, .ok resp, ch, sp⟩ msgs0).finalQuestion =
          some (.pstr (pyStrip typed))) := by
  have h0 : pyTruthy (PyVal.pstr "") = false := rfl
  refine ⟨?_, ?_, ?_⟩
  · intro hl
    simp [safe_get_transcription_text, getAttrD, getAttr, hl, h0, pyGet]
  · intro hl
    simp [safe_get_transcription_text, getAttrD, getAttr, pyGet, hl, h0, pyTruthy]
  · intro resp hq
    rw [runSubmit_finalQuestion _ _ hk]
    simp [transcriptionPhase, hq]

/-- Witness for C10: both empty-transcript shapes, and the typed-text
fallback taking effect on a submission whose transcription returned a
mapping with empty `text`. -/
theorem empty_transcript_never_final_witness :
    safe_get_transcription_text (.pobj [("text", .pstr "")]) = .pnone ∧
    safe_get_transcription_text (.pdict [("text", .pstr "")]) = .pstr "" ∧
    (runSubmit ⟨"sk-abc", "fallback", true, "Playful Jester",
        .ok (.pdict [("text", .pstr "")]), .error "x", .ok .pnone⟩ []).finalQuestion =
      some (.pstr "fallback") :=
  ⟨(empty_transcript_never_final [("text", .pstr "")] [("text", .pstr "")]
      "sk-abc" "fallback" "Playful Jester" (.error "x") (.ok .pnone) [] rfl).1 rfl,
   (empty_transcript_never_final [("text", .pstr "")] [("text", .pstr "")]
      "sk-abc" "fallback" "Playful Jester" (.error "x") (.ok .pnone) [] rfl).2.1 rfl,
   (empty_transcript_never_final [("text", .pstr "")] [("text", .pstr "")]
      "sk-abc" "fallback" "Playful Jester" (.error "x") (.ok .pnone) [] rfl).2.2
     (.pdict [("text", .pstr "")]) rfl⟩
